import Mathlib

/-!
Shallow embedding of `src/scenarios/discovery_collab_simulation.py`
(NS-3 discovery/collaboration simulation).

Simulated times and durations (Python floats in the source) are modelled as
rationals; the literals `0.2` and `0.3` become `1/5` and `3/10`.  Python's
`%` on integers is modelled with an explicit zero-modulus guard, since Python
raises `ZeroDivisionError` there.  Python dictionaries keep insertion order,
so the neighbors dictionary is modelled as an association list in insertion
order.
-/

namespace DiscoveryCollab

/-- Kind of a simulated node; the source keys its neighbors dictionary on the
strings `'fixed'` and `'mobile'`. -/
inductive NodeKind where
  | fixed
  | mobile
deriving DecidableEq, Repr

/-- A neighbor entry exactly as appended by `_find_neighbors`: `(index, kind)`. -/
abbrev Neighbor := Nat × NodeKind

/-- One entry of the neighbors dictionary: key `(kind, index)`, value the list of
neighbors in append order. -/
abbrev TopoEntry := (NodeKind × Nat) × List Neighbor

/-- The neighbors dictionary returned by `_find_neighbors`, in insertion order. -/
abbrev Topology := List TopoEntry

/-- Python integer `%` with the zero-modulus error made explicit
(`a % 0` raises `ZeroDivisionError` in Python). -/
def pyMod (a b : Nat) : Option Nat :=
  if b = 0 then none else some (a % b)

/-- Python `int()` applied to a nonnegative-or-negative rational: truncation
toward zero. -/
def pyInt (q : ℚ) : Int :=
  if 0 ≤ q then ⌊q⌋ else ⌈q⌉

/-- Neighbor list built for fixed node `i` (source lines 452-460): fixed nodes
`j` with `i ≠ j` and `|i - j| ≤ 1`, in ascending `j`, followed by the first
`min 2 M` mobile nodes. -/
def fixedNeighborList (F M i : Nat) : List Neighbor :=
  ((List.range F).filter
      (fun j => decide (i ≠ j ∧ ((i : Int) - (j : Int)).natAbs ≤ 1))).map
      (fun j => (j, NodeKind.fixed))
    ++ (List.range (min 2 M)).map (fun j => (j, NodeKind.mobile))

/-- Neighbor list built for mobile node `i` (source lines 463-471): the fixed
node `i % F`, then mobile node `(i+1) % M` unless it equals `i`.  Both `%`
operations go through `pyMod`, so a zero count fails as in Python. -/
def mobileNeighborList (F M i : Nat) : Option (List Neighbor) :=
  match pyMod i F with
  | none => none
  | some fixedNeighbor =>
    match pyMod (i + 1) M with
    | none => none
    | some nextMobile =>
      some ((fixedNeighbor, NodeKind.fixed) ::
        (if nextMobile ≠ i then [(nextMobile, NodeKind.mobile)] else []))

/-- The mobile half of the neighbors dictionary, built sequentially over the
given index list exactly as the source's `for i in range(num_mobile)` loop;
the first Python error aborts the whole computation. -/
def buildMobileEntries (F M : Nat) : List Nat → Option Topology
  | [] => some []
  | i :: rest =>
    match mobileNeighborList F M i with
    | none => none
    | some nbrs =>
      match buildMobileEntries F M rest with
      | none => none
      | some tail => some (((NodeKind.mobile, i), nbrs) :: tail)

/-- `CollaborationPhaseManager._find_neighbors` (source lines 446-473): fixed
entries in index order, then mobile entries in index order. -/
def find_neighbors (F M : Nat) : Option Topology :=
  match buildMobileEntries F M (List.range M) with
  | none => none
  | some mobileEntries =>
    some ((List.range F).map (fun i => ((NodeKind.fixed, i), fixedNeighborList F M i))
      ++ mobileEntries)

/-- `neighbors.get((kind, i), [])`: association-list lookup with `[]` default. -/
def topoGet (t : Topology) (key : NodeKind × Nat) : List Neighbor :=
  match t.find? (fun e => decide (e.1 = key)) with
  | some e => e.2
  | none => []

/-- Membership of a directed edge `p → q` in a computed topology. -/
def topoHasEdge (t : Topology) (p q : NodeKind × Nat) : Prop :=
  ∃ nbrs, (p, nbrs) ∈ t ∧ (q.2, q.1) ∈ nbrs

/-- `p` is one of the `F` fixed or `M` mobile participants. -/
def isParticipant (F M : Nat) (p : NodeKind × Nat) : Prop :=
  match p.1 with
  | NodeKind.fixed => p.2 < F
  | NodeKind.mobile => p.2 < M

/-- The spec's adjacency rule, written from the spec's words for comparison
with the source-derived `find_neighbors`: fixed `i` ~ fixed `j` iff `i ≠ j`
and `|i-j| ≤ 1`; fixed `i` ~ the first `min 2 M` mobiles; mobile `i` ~ fixed
`i % F`; mobile `i` ~ mobile `(i+1) % M` unless that equals `i`. -/
def specAdjacent (F M : Nat) : NodeKind × Nat → NodeKind × Nat → Prop
  | (NodeKind.fixed, i), (NodeKind.fixed, j) =>
      j < F ∧ i ≠ j ∧ ((i : Int) - (j : Int)).natAbs ≤ 1
  | (NodeKind.fixed, _), (NodeKind.mobile, j) => j < min 2 M
  | (NodeKind.mobile, i), (NodeKind.fixed, j) => j = i % F
  | (NodeKind.mobile, i), (NodeKind.mobile, j) => j = (i + 1) % M ∧ j ≠ i

/-- The fixed-then-mobile participant ordering (spec §3's `globalIndex`). -/
def globalIndex (F : Nat) : NodeKind × Nat → Nat
  | (NodeKind.fixed, i) => i
  | (NodeKind.mobile, i) => F + i

/-- All participants, fixed first in index order, then mobile in index order. -/
def allParticipants (F M : Nat) : List (NodeKind × Nat) :=
  (List.range F).map (fun i => (NodeKind.fixed, i))
    ++ (List.range M).map (fun i => (NodeKind.mobile, i))

/-- `SimulationConfig.__init__` (source lines 30-54); default field values are
the constructor's defaults. -/
structure SimulationConfig where
  num_fixed_nodes : Nat := 2
  num_mobile_nodes : Nat := 4
  sim_time : ℚ := 100
  distance : ℚ := 50
  enable_pcap : Bool := false
  verbose : Bool := true
  discovery_start : ℚ := 2
  discovery_duration : ℚ := 20
  collab_start : ℚ := 25
  collab_duration : ℚ := 70
  discovery_port : Nat := 8000
  collab_base_port : Nat := 9000
  discovery_range : ℚ := 80
  discovery_interval : ℚ := 2
  network_base : String := "10.1.1.0"
  network_mask : String := "255.255.255.0"
deriving DecidableEq, Repr

/-- A fresh `SimulationConfig()`. -/
def defaultConfig : SimulationConfig := {}

/-- The well-typed command-line values consumed by `parse_arguments`
(source lines 63-78); defaults mirror argparse's defaults, which are the
constructor values of `SimulationConfig`. -/
structure Args where
  numFixed : Nat := 2
  numMobile : Nat := 4
  simTime : ℚ := 100
  distance : ℚ := 50
  pcap : Bool := false
  verbose : Bool := true
  discoveryDuration : ℚ := 20
  collabDuration : ℚ := 70
deriving DecidableEq, Repr

/-- `SimulationConfig.parse_arguments` (source lines 56-89): copies the parsed
values into the configuration.  The source performs no validation of the
resulting configuration, so for well-typed arguments the only outcome is
success; the `Except` wrapper records that no error is ever raised. -/
def parse_arguments (cfg : SimulationConfig) (a : Args) : Except String SimulationConfig :=
  Except.ok { cfg with
    num_fixed_nodes := a.numFixed
    num_mobile_nodes := a.numMobile
    sim_time := a.simTime
    distance := a.distance
    enable_pcap := a.pcap
    verbose := a.verbose
    discovery_duration := a.discoveryDuration
    collab_duration := a.collabDuration }

/-- Collaboration server port assigned in `setup_collaboration_phase`
(source lines 373 and 379): `collab_base_port + i` for fixed node `i`,
`collab_base_port + num_fixed_nodes + i` for mobile node `i`. -/
def collabServerPort (cfg : SimulationConfig) (p : NodeKind × Nat) : Nat :=
  match p.1 with
  | NodeKind.fixed => cfg.collab_base_port + p.2
  | NodeKind.mobile => cfg.collab_base_port + cfg.num_fixed_nodes + p.2

/-- The spec's §4.2 scheduler, written from the spec's words for comparison
with the source-derived start times: `window.start + k * spacing` for the
participant at global index `k`. -/
def scheduleOffset (start spacing : ℚ) (k : Nat) : ℚ :=
  start + (k : ℚ) * spacing

/-- Discovery client start time (source lines 304 and 311-312):
`discovery_start + i * 0.2` for fixed node `i`,
`discovery_start + (num_fixed_nodes + i) * 0.2` for mobile node `i`. -/
def discoveryClientStart (cfg : SimulationConfig) (p : NodeKind × Nat) : ℚ :=
  match p.1 with
  | NodeKind.fixed => cfg.discovery_start + (p.2 : ℚ) * (1 / 5)
  | NodeKind.mobile =>
      cfg.discovery_start + ((cfg.num_fixed_nodes + p.2 : Nat) : ℚ) * (1 / 5)

/-- The UDP echo client installed by
`DiscoveryPhaseManager._create_discovery_client` (source lines 329-350). -/
structure DiscoveryClient where
  destAddress : String
  destPort : Nat
  maxPackets : Int
  interval : ℚ
  packetSize : Nat
  startTime : ℚ
  stopTime : ℚ
deriving DecidableEq, Repr

/-- `_create_discovery_client` (source lines 329-350): hard-coded broadcast
destination `10.1.1.255` at `discovery_port`,
`MaxPackets = int(discovery_duration / discovery_interval)`, packet size 128,
stop at `discovery_start + discovery_duration`. -/
def create_discovery_client (cfg : SimulationConfig) (startTime : ℚ) : DiscoveryClient :=
  { destAddress := "10.1.1.255"
    destPort := cfg.discovery_port
    maxPackets := pyInt (cfg.discovery_duration / cfg.discovery_interval)
    interval := cfg.discovery_interval
    packetSize := 128
    startTime := startTime
    stopTime := cfg.discovery_start + cfg.discovery_duration }

/-- The UDP echo client installed by
`CollaborationPhaseManager._create_collab_client` (source lines 475-491). -/
structure CollabClient where
  source : NodeKind × Nat
  target : NodeKind × Nat
  targetPort : Nat
  maxPackets : Nat
  interval : ℚ
  packetSize : Nat
  startTime : ℚ
  stopTime : ℚ
deriving DecidableEq, Repr

/-- `_create_collab_client` (source lines 475-491): `MaxPackets = 10000`,
interval 1 s, packet size 1024, stop at `collab_start + collab_duration`. -/
def create_collab_client (cfg : SimulationConfig) (src tgt : NodeKind × Nat)
    (tport : Nat) (startTime : ℚ) : CollabClient :=
  { source := src
    target := tgt
    targetPort := tport
    maxPackets := 10000
    interval := 1
    packetSize := 1024
    startTime := startTime
    stopTime := cfg.collab_start + cfg.collab_duration }

/-- Target port chosen in `_setup_collab_connections` per neighbor kind
(source lines 415, 421, 433 and 440). -/
def neighborTargetPort (cfg : SimulationConfig) (nb : Neighbor) : Nat :=
  match nb.2 with
  | NodeKind.fixed => cfg.collab_base_port + nb.1
  | NodeKind.mobile => cfg.collab_base_port + cfg.num_fixed_nodes + nb.1

/-- The clients one source node installs for its neighbor list, all sharing
the one start time passed by the enclosing loop. -/
def clientsFromSource (cfg : SimulationConfig) (src : NodeKind × Nat)
    (startTime : ℚ) (nbrs : List Neighbor) : List CollabClient :=
  nbrs.map (fun nb =>
    create_collab_client cfg src (nb.2, nb.1) (neighborTargetPort cfg nb) startTime)

/-- `CollaborationPhaseManager._setup_collab_connections` (source lines
402-444): computes `_find_neighbors`, then for fixed node `i` installs one
client per neighbor starting at `collab_start + i * 0.3`, and for mobile node
`i` one client per neighbor starting at
`collab_start + (num_fixed_nodes + i) * 0.3`. -/
def setup_collab_connections (cfg : SimulationConfig) : Option (List CollabClient) :=
  match find_neighbors cfg.num_fixed_nodes cfg.num_mobile_nodes with
  | none => none
  | some nbrs =>
    some (((List.range cfg.num_fixed_nodes).map (fun i =>
      clientsFromSource cfg (NodeKind.fixed, i)
        (cfg.collab_start + (i : ℚ) * (3 / 10))
        (topoGet nbrs (NodeKind.fixed, i)))).flatten
    ++ ((List.range cfg.num_mobile_nodes).map (fun i =>
      clientsFromSource cfg (NodeKind.mobile, i)
        (cfg.collab_start + ((cfg.num_fixed_nodes + i : Nat) : ℚ) * (3 / 10))
        (topoGet nbrs (NodeKind.mobile, i)))).flatten)

/-- Two configurations that agree everywhere except possibly on
`network_base` and `network_mask`. -/
def sameExceptNetwork (cfg₁ cfg₂ : SimulationConfig) : Prop :=
  cfg₂ = { cfg₁ with network_base := cfg₂.network_base,
                     network_mask := cfg₂.network_mask }

/-- The value `mobileNeighborList` produces whenever both counts are positive;
used only to reason about `find_neighbors`. -/
def mobilePure (F M i : Nat) : List Neighbor :=
  (i % F, NodeKind.fixed) ::
    (if (i + 1) % M ≠ i then [((i + 1) % M, NodeKind.mobile)] else [])

/-- The fixed half of a successfully computed neighbors dictionary. -/
def fixedPart (F M : Nat) : Topology :=
  (List.range F).map (fun i => ((NodeKind.fixed, i), fixedNeighborList F M i))

/-- The mobile half of a successfully computed neighbors dictionary. -/
def mobilePart (F M : Nat) : Topology :=
  (List.range M).map (fun i => ((NodeKind.mobile, i), mobilePure F M i))

lemma mobileNeighborList_pos {F M : Nat} (hF : 0 < F) (hM : 0 < M) (i : Nat) :
    mobileNeighborList F M i = some (mobilePure F M i) := by
  have hF' : F ≠ 0 := Nat.pos_iff_ne_zero.mp hF
  have hM' : M ≠ 0 := Nat.pos_iff_ne_zero.mp hM
  simp [mobileNeighborList, pyMod, hF', hM', mobilePure]

lemma mobileNeighborList_some {F M i : Nat} {v : List Neighbor}
    (h : mobileNeighborList F M i = some v) :
    0 < F ∧ 0 < M ∧ v = mobilePure F M i := by
  by_cases hF : F = 0
  · simp [mobileNeighborList, pyMod, hF] at h
  · by_cases hM : M = 0
    · simp [mobileNeighborList, pyMod, hF, hM] at h
    · have hF' := Nat.pos_of_ne_zero hF
      have hM' := Nat.pos_of_ne_zero hM
      rw [mobileNeighborList_pos hF' hM'] at h
      exact ⟨hF', hM', (Option.some.inj h).symm⟩

lemma buildMobileEntries_pos {F M : Nat} (hF : 0 < F) (hM : 0 < M) :
    ∀ l : List Nat, buildMobileEntries F M l
      = some (l.map (fun i => ((NodeKind.mobile, i), mobilePure F M i)))
  | [] => rfl
  | i :: rest => by
      simp [buildMobileEntries, mobileNeighborList_pos hF hM,
        buildMobileEntries_pos hF hM rest]

lemma buildMobileEntries_sound {F M : Nat} :
    ∀ {l : List Nat} {mt : Topology}, buildMobileEntries F M l = some mt →
      ∀ e ∈ mt, ∃ i, i ∈ l ∧ e = ((NodeKind.mobile, i), mobilePure F M i) ∧ 0 < F ∧ 0 < M
  | [], mt, h => by
      simp only [buildMobileEntries] at h
      cases h
      intro e he
      simp at he
  | i :: rest, mt, h => by
      rcases hv : mobileNeighborList F M i with _ | v
      · simp [buildMobileEntries, hv] at h
      rcases htail : buildMobileEntries F M rest with _ | tail
      · simp [buildMobileEntries, hv, htail] at h
      simp only [buildMobileEntries, hv, htail, Option.some.injEq] at h
      subst h
      obtain ⟨hF, hM, rfl⟩ := mobileNeighborList_some hv
      intro e he
      rcases List.mem_cons.mp he with rfl | he'
      · exact ⟨i, List.mem_cons_self i rest, rfl, hF, hM⟩
      · obtain ⟨j, hj, hje, hF', hM'⟩ := buildMobileEntries_sound htail e he'
        exact ⟨j, List.mem_cons_of_mem i hj, hje, hF', hM'⟩

lemma find_neighbors_pos {F M : Nat} (hF : 0 < F) (hM : 0 < M) :
    find_neighbors F M = some (fixedPart F M ++ mobilePart F M) := by
  simp [find_neighbors, buildMobileEntries_pos hF hM, fixedPart, mobilePart]

lemma find_neighbors_split {F M : Nat} {t : Topology}
    (h : find_neighbors F M = some t) :
    ∃ mt, buildMobileEntries F M (List.range M) = some mt ∧ t = fixedPart F M ++ mt := by
  rcases hb : buildMobileEntries F M (List.range M) with _ | mt
  · simp [find_neighbors, hb] at h
  · simp only [find_neighbors, hb, Option.some.injEq] at h
    exact ⟨mt, rfl, h.symm⟩

lemma mem_fixedNeighborList {F M i j : Nat} {k : NodeKind} :
    (j, k) ∈ fixedNeighborList F M i ↔
      (k = NodeKind.fixed ∧ j < F ∧ i ≠ j ∧ ((i : Int) - (j : Int)).natAbs ≤ 1) ∨
      (k = NodeKind.mobile ∧ j < min 2 M) := by
  simp only [fixedNeighborList, List.mem_append, List.mem_map, List.mem_filter,
    List.mem_range, decide_eq_true_eq, Prod.mk.injEq]
  cases k <;> aesop

lemma mem_mobilePure {F M i j : Nat} {k : NodeKind} :
    (j, k) ∈ mobilePure F M i ↔
      (k = NodeKind.fixed ∧ j = i % F) ∨
      (k = NodeKind.mobile ∧ j = (i + 1) % M ∧ (i + 1) % M ≠ i) := by
  by_cases h : (i + 1) % M ≠ i <;>
    simp only [mobilePure, if_pos, if_neg, h, ite_true, ite_false] <;>
    cases k <;> aesop

lemma topoHasEdge_iff (F M : Nat) (k : NodeKind) (i : Nat) (q : NodeKind × Nat) :
    topoHasEdge (fixedPart F M ++ mobilePart F M) (k, i) q ↔
      (k = NodeKind.fixed ∧ i < F ∧ (q.2, q.1) ∈ fixedNeighborList F M i) ∨
      (k = NodeKind.mobile ∧ i < M ∧ (q.2, q.1) ∈ mobilePure F M i) := by
  simp only [topoHasEdge, fixedPart, mobilePart, List.mem_append, List.mem_map,
    List.mem_range, Prod.mk.injEq]
  constructor
  · rintro ⟨nbrs, ⟨a, ha, ⟨hk, hi⟩, hv⟩ | ⟨a, ha, ⟨hk, hi⟩, hv⟩, hmem⟩
    · subst hi; subst hv; exact Or.inl ⟨hk.symm, ha, hmem⟩
    · subst hi; subst hv; exact Or.inr ⟨hk.symm, ha, hmem⟩
  · rintro (⟨rfl, hiF, hmem⟩ | ⟨rfl, hiM, hmem⟩)
    · exact ⟨_, Or.inl ⟨i, hiF, ⟨rfl, rfl⟩, rfl⟩, hmem⟩
    · exact ⟨_, Or.inr ⟨i, hiM, ⟨rfl, rfl⟩, rfl⟩, hmem⟩

/-- Claim C1: for all counts `F ≥ 1`, `M ≥ 1`, `_find_neighbors` succeeds and
returns exactly the spec's adjacency rule — fixed `i` is adjacent to fixed
`j ≠ i` with `|i-j| ≤ 1` and to the first `min 2 M` mobiles; mobile `i` is
adjacent to fixed `i % F` and to mobile `(i+1) % M` unless that equals `i`.
The result is a pure function of `(F, M)` (two calls agree), and for `F = 2`,
`M = 4` fixed 0's neighbors are `{Fixed-1, Mobile-0, Mobile-1}` and mobile 3's
neighbors are `{Fixed-1, Mobile-0}`. -/
theorem find_neighbors_matches_spec (F M : Nat) (hF : 1 ≤ F) (hM : 1 ≤ M) :
    ∃ t, find_neighbors F M = some t ∧
      (∀ p q : NodeKind × Nat, isParticipant F M p →
        (topoHasEdge t p q ↔ specAdjacent F M p q)) ∧
      find_neighbors F M = find_neighbors F M ∧
      (∃ t24, find_neighbors 2 4 = some t24 ∧
        topoGet t24 (NodeKind.fixed, 0) =
          [(1, NodeKind.fixed), (0, NodeKind.mobile), (1, NodeKind.mobile)] ∧
        topoGet t24 (NodeKind.mobile, 3) =
          [(1, NodeKind.fixed), (0, NodeKind.mobile)]) := by
  refine ⟨fixedPart F M ++ mobilePart F M, find_neighbors_pos hF hM, ?_, rfl,
    (find_neighbors 2 4).getD [], by rfl, by rfl, by rfl⟩
  rintro ⟨k, i⟩ ⟨qk, qj⟩ hp
  rw [topoHasEdge_iff]
  cases k <;> cases qk <;>
    simp only [isParticipant] at hp <;>
    simp [specAdjacent, mem_fixedNeighborList, mem_mobilePure, hp] <;>
    aesop

/-- Witness for C1 at the spec's concrete scenario `F = 2`, `M = 4`. -/
theorem find_neighbors_matches_spec_witness :
    1 ≤ 2 ∧ 1 ≤ 4 ∧
    (∃ t, find_neighbors 2 4 = some t ∧
      (∀ p q : NodeKind × Nat, isParticipant 2 4 p →
        (topoHasEdge t p q ↔ specAdjacent 2 4 p q)) ∧
      find_neighbors 2 4 = find_neighbors 2 4 ∧
      (∃ t24, find_neighbors 2 4 = some t24 ∧
        topoGet t24 (NodeKind.fixed, 0) =
          [(1, NodeKind.fixed), (0, NodeKind.mobile), (1, NodeKind.mobile)] ∧
        topoGet t24 (NodeKind.mobile, 3) =
          [(1, NodeKind.fixed), (0, NodeKind.mobile)])) :=
  ⟨by decide, by decide, find_neighbors_matches_spec 2 4 (by decide) (by decide)⟩

/-- Claim C9: with zero fixed participants and at least one mobile participant
the neighbor computation fails (the mobile rule evaluates `i % 0`, Python's
`ZeroDivisionError`, modelled as `pyMod`'s error branch), so no topology is
returned. -/
theorem zero_fixed_topology_fails (M : Nat) (hM : 1 ≤ M) :
    find_neighbors 0 M = none := by
  obtain ⟨m, rfl⟩ : ∃ m, M = m + 1 := ⟨M - 1, by omega⟩
  simp [find_neighbors, List.range_succ_eq_map, buildMobileEntries,
    mobileNeighborList, pyMod]

/-- Witness for C9 at `M = 1`. -/
theorem zero_fixed_topology_fails_witness :
    1 ≤ 1 ∧ find_neighbors 0 1 = none :=
  ⟨by decide, zero_fixed_topology_fails 1 (by decide)⟩

/-- Claim C5 (counterexample): with `F = 1`, `M = 0` the neighbor computation
does not raise; it silently returns a topology in which fixed participant 0
has an empty neighbor list. -/
theorem zero_mobile_silent :
    find_neighbors 1 0 = some [((NodeKind.fixed, 0), [])] := rfl

/-- Claim C5 (amended): for every `F ≥ 1` with `M = 0`, `_find_neighbors`
succeeds — no configuration error is raised — and every entry belongs to a
fixed participant whose neighbor list contains no mobile entries (the
fixed-to-mobile edges are silently omitted). -/
theorem zero_mobile_no_error (F : Nat) (hF : 1 ≤ F) :
    ∃ t, find_neighbors F 0 = some t ∧
      ∀ e ∈ t, e.1.1 = NodeKind.fixed ∧ ∀ nb ∈ e.2, nb.2 = NodeKind.fixed := by
  refine ⟨(List.range F).map
      (fun i => ((NodeKind.fixed, i), fixedNeighborList F 0 i)), ?_, ?_⟩
  · simp [find_neighbors, buildMobileEntries]
  · intro e he
    obtain ⟨i, _, rfl⟩ := List.mem_map.mp he
    refine ⟨rfl, ?_⟩
    rintro ⟨j, k⟩ hnb
    rcases mem_fixedNeighborList.mp hnb with ⟨hk, _⟩ | ⟨_, hj⟩
    · exact hk
    · simp at hj

/-- Witness for the amended C5 at `F = 2`. -/
theorem zero_mobile_no_error_witness :
    1 ≤ 2 ∧
    (∃ t, find_neighbors 2 0 = some t ∧
      ∀ e ∈ t, e.1.1 = NodeKind.fixed ∧ ∀ nb ∈ e.2, nb.2 = NodeKind.fixed) :=
  ⟨by decide, zero_mobile_no_error 2 (by decide)⟩

/-- Claim C4 (counterexample): supplying `discoveryDuration = 50` on the
command line makes the discovery window `[2, 52)` overlap the collaboration
start `25`, yet `parse_arguments` accepts it — no configuration error is
raised, the parse succeeds and the overlapping configuration is returned. -/
theorem window_overlap_accepted :
    parse_arguments defaultConfig { discoveryDuration := 50 } =
      Except.ok { defaultConfig with discovery_duration := 50 } ∧
    ({ defaultConfig with discovery_duration := 50 } : SimulationConfig).collab_start <
      ({ defaultConfig with discovery_duration := 50 } : SimulationConfig).discovery_start +
        ({ defaultConfig with discovery_duration := 50 } : SimulationConfig).discovery_duration :=
  ⟨rfl, by norm_num [defaultConfig]⟩

/-- Claim C4 (amended): the code performs no window-ordering validation.
`parse_arguments` succeeds for every well-typed argument set, copying the
supplied durations into the configuration unchecked, so a configuration with
`Collaboration.start < Discovery.start + Discovery.length` is accepted and
never rejected with an error. -/
theorem parse_accepts_any_args (cfg : SimulationConfig) (a : Args) :
    (∃ cfg', parse_arguments cfg a = Except.ok cfg' ∧
      cfg'.collab_start = cfg.collab_start ∧
      cfg'.discovery_start = cfg.discovery_start ∧
      cfg'.discovery_duration = a.discoveryDuration) ∧
    ∀ e, parse_arguments cfg a ≠ Except.error e := by
  refine ⟨⟨_, rfl, rfl, rfl, rfl⟩, ?_⟩
  intro e h
  simp [parse_arguments] at h

/-- Claim C8: every edge of a successfully computed topology is proper — the
key of every entry is a participant, no participant appears in its own
neighbor list, and every referenced fixed index is below `F`, every
referenced mobile index below `M`. -/
theorem topology_edges_proper (F M : Nat) (t : Topology)
    (h : find_neighbors F M = some t) :
    ∀ e ∈ t, e.1 ∈ allParticipants F M ∧
      ∀ nb ∈ e.2, (nb.2, nb.1) ≠ e.1 ∧
        (nb.2 = NodeKind.fixed → nb.1 < F) ∧
        (nb.2 = NodeKind.mobile → nb.1 < M) := by
  obtain ⟨mt, hmt, rfl⟩ := find_neighbors_split h
  intro e he
  rcases List.mem_append.mp he with hfix | hmob
  · simp only [fixedPart, List.mem_map, List.mem_range] at hfix
    obtain ⟨i, hiF, rfl⟩ := hfix
    refine ⟨by simp [allParticipants, hiF], ?_⟩
    rintro ⟨j, k⟩ hnb
    rcases mem_fixedNeighborList.mp hnb with ⟨rfl, hjF, hne, _⟩ | ⟨rfl, hj⟩
    · refine ⟨?_, fun _ => hjF, by simp⟩
      simp only [ne_eq, Prod.mk.injEq, true_and]
      omega
    · refine ⟨by simp, by simp, fun _ => ?_⟩
      omega
  · obtain ⟨i, hil, rfl, hF0, hM0⟩ := buildMobileEntries_sound hmt e hmob
    have hiM : i < M := List.mem_range.mp hil
    refine ⟨by simp [allParticipants, hiM], ?_⟩
    rintro ⟨j, k⟩ hnb
    rcases mem_mobilePure.mp hnb with ⟨rfl, rfl⟩ | ⟨rfl, rfl, hne⟩
    · exact ⟨by simp, fun _ => Nat.mod_lt _ hF0, by simp⟩
    · refine ⟨?_, by simp, fun _ => Nat.mod_lt _ hM0⟩
      simp only [ne_eq, Prod.mk.injEq, true_and]
      exact hne

/-- Witness for C8 at `F = 2`, `M = 4`. -/
theorem topology_edges_proper_witness :
    find_neighbors 2 4 = some ((find_neighbors 2 4).getD []) ∧
    ∀ e ∈ (find_neighbors 2 4).getD [], e.1 ∈ allParticipants 2 4 ∧
      ∀ nb ∈ e.2, (nb.2, nb.1) ≠ e.1 ∧
        (nb.2 = NodeKind.fixed → nb.1 < 2) ∧
        (nb.2 = NodeKind.mobile → nb.1 < 4) :=
  ⟨rfl, topology_edges_proper 2 4 ((find_neighbors 2 4).getD []) rfl⟩

/-- Claim C2: for every configuration the collaboration server port of a
participant equals `collab_base_port + globalIndex`; consequently the ports
over all `F + M` participants are pairwise distinct (`F + M` values), and with
the defaults (`F = 2`, `M = 4`, base 9000) Fixed-0, Fixed-1, Mobile-0 and
Mobile-3 get 9000, 9001, 9002 and 9005. -/
theorem collab_ports_unique (cfg : SimulationConfig) :
    (∀ p, collabServerPort cfg p
        = cfg.collab_base_port + globalIndex cfg.num_fixed_nodes p) ∧
    ((allParticipants cfg.num_fixed_nodes cfg.num_mobile_nodes).map
        (collabServerPort cfg)).Nodup ∧
    ((allParticipants cfg.num_fixed_nodes cfg.num_mobile_nodes).map
        (collabServerPort cfg)).length
      = cfg.num_fixed_nodes + cfg.num_mobile_nodes ∧
    collabServerPort defaultConfig (NodeKind.fixed, 0) = 9000 ∧
    collabServerPort defaultConfig (NodeKind.fixed, 1) = 9001 ∧
    collabServerPort defaultConfig (NodeKind.mobile, 0) = 9002 ∧
    collabServerPort defaultConfig (NodeKind.mobile, 3) = 9005 := by
  refine ⟨?_, ?_, by simp [allParticipants], rfl, rfl, rfl, rfl⟩
  · rintro ⟨k, i⟩
    cases k <;> simp [collabServerPort, globalIndex, Nat.add_assoc]
  · have hmap : (allParticipants cfg.num_fixed_nodes cfg.num_mobile_nodes).map
        (collabServerPort cfg)
        = (List.range cfg.num_fixed_nodes).map (fun i => cfg.collab_base_port + i)
          ++ (List.range cfg.num_mobile_nodes).map
            (fun i => cfg.collab_base_port + cfg.num_fixed_nodes + i) := by
      simp only [allParticipants, List.map_append, List.map_map]
      rfl
    rw [hmap, List.nodup_append]
    refine ⟨List.Nodup.map (fun a b hab => by omega) (List.nodup_range _),
      List.Nodup.map (fun a b hab => by omega) (List.nodup_range _), ?_⟩
    intro x hx hx'
    simp only [List.mem_map, List.mem_range] at hx hx'
    obtain ⟨a, ha, rfl⟩ := hx
    obtain ⟨b, _, hba⟩ := hx'
    omega

/-- Claim C3: the scheduler pattern used by the discovery phase assigns the
participant at global index `k` the offset `window.start + k * spacing`; the
source's discovery start times are exactly this pattern at spacing `0.2`;
for positive spacing the offsets strictly increase with the index, and under
`spacing * count < length` they all lie in `[start, start + length)`; the
concrete discovery scenario (window `[2, 22)`, spacing `0.2`, 6 participants)
yields `2.0, 2.2, 2.4, 2.6, 2.8, 3.0`, all below 22. -/
theorem discovery_schedule_offsets (start len s : ℚ) (count : Nat)
    (hlen : 0 < len) (hs : 0 < s) (hbound : s * (count : ℚ) < len) :
    (∀ cfg p, discoveryClientStart cfg p
        = scheduleOffset cfg.discovery_start (1 / 5)
            (globalIndex cfg.num_fixed_nodes p)) ∧
    (∀ k₁ k₂ : Nat, k₁ < k₂ →
      scheduleOffset start s k₁ < scheduleOffset start s k₂) ∧
    (∀ k : Nat, k < count →
      start ≤ scheduleOffset start s k ∧ scheduleOffset start s k < start + len) ∧
    (List.range 6).map (scheduleOffset 2 (1 / 5))
      = [2, 11 / 5, 12 / 5, 13 / 5, 14 / 5, 3] ∧
    (∀ q ∈ (List.range 6).map (scheduleOffset 2 (1 / 5)), q < 22) := by
  refine ⟨?_, ?_, ?_, ?_, ?_⟩
  · rintro cfg ⟨k, i⟩
    cases k <;> simp [discoveryClientStart, scheduleOffset, globalIndex]
  · intro k₁ k₂ hk
    have hq : (k₁ : ℚ) < (k₂ : ℚ) := by exact_mod_cast hk
    have := mul_lt_mul_of_pos_right hq hs
    simp only [scheduleOffset]
    linarith
  · intro k hk
    have hk' : (k : ℚ) < (count : ℚ) := by exact_mod_cast hk
    have h0 : 0 ≤ (k : ℚ) * s := mul_nonneg (Nat.cast_nonneg k) hs.le
    have h1 : (k : ℚ) * s < (count : ℚ) * s := mul_lt_mul_of_pos_right hk' hs
    simp only [scheduleOffset]
    constructor
    · linarith
    · nlinarith
  · norm_num [List.range_succ, scheduleOffset]
  · intro q hq
    simp only [List.mem_map, List.mem_range] at hq
    obtain ⟨k, hk6, rfl⟩ := hq
    interval_cases k <;> norm_num [scheduleOffset]

/-- Witness for C3 at the spec's discovery scenario: window `[2, 22)`,
spacing `1/5`, 6 participants. -/
theorem discovery_schedule_offsets_witness :
    (0 : ℚ) < 20 ∧ (0 : ℚ) < 1 / 5 ∧ (1 / 5 : ℚ) * ((6 : Nat) : ℚ) < 20 ∧
    ((∀ cfg p, discoveryClientStart cfg p
        = scheduleOffset cfg.discovery_start (1 / 5)
            (globalIndex cfg.num_fixed_nodes p)) ∧
    (∀ k₁ k₂ : Nat, k₁ < k₂ →
      scheduleOffset 2 (1 / 5) k₁ < scheduleOffset 2 (1 / 5) k₂) ∧
    (∀ k : Nat, k < 6 →
      2 ≤ scheduleOffset 2 (1 / 5) k ∧ scheduleOffset 2 (1 / 5) k < 2 + 20) ∧
    (List.range 6).map (scheduleOffset 2 (1 / 5))
      = [2, 11 / 5, 12 / 5, 13 / 5, 14 / 5, 3] ∧
    (∀ q ∈ (List.range 6).map (scheduleOffset 2 (1 / 5)), q < 22)) :=
  ⟨by norm_num, by norm_num, by norm_num,
    discovery_schedule_offsets 2 20 (1 / 5) 6 (by norm_num) (by norm_num) (by norm_num)⟩

lemma setup_collab_connections_split {cfg : SimulationConfig} {cs : List CollabClient}
    (h : setup_collab_connections cfg = some cs) :
    ∃ nbrs, find_neighbors cfg.num_fixed_nodes cfg.num_mobile_nodes = some nbrs ∧
      cs = (((List.range cfg.num_fixed_nodes).map (fun i =>
          clientsFromSource cfg (NodeKind.fixed, i)
            (cfg.collab_start + (i : ℚ) * (3 / 10))
            (topoGet nbrs (NodeKind.fixed, i)))).flatten
        ++ ((List.range cfg.num_mobile_nodes).map (fun i =>
          clientsFromSource cfg (NodeKind.mobile, i)
            (cfg.collab_start + ((cfg.num_fixed_nodes + i : Nat) : ℚ) * (3 / 10))
            (topoGet nbrs (NodeKind.mobile, i)))).flatten) := by
  rcases hn : find_neighbors cfg.num_fixed_nodes cfg.num_mobile_nodes with _ | nbrs
  · simp [setup_collab_connections, hn] at h
  · simp only [setup_collab_connections, hn, Option.some.injEq] at h
    exact ⟨nbrs, rfl, h.symm⟩

/-- Claim C6: every collaboration client installed by
`_setup_collab_connections` starts at its source participant's own offset
`collab_start + globalIndex * 0.3` and stops at the collaboration window end;
hence all clients sharing a source start simultaneously, not staggered
per edge. -/
theorem collab_clients_common_start (cfg : SimulationConfig) (cs : List CollabClient)
    (h : setup_collab_connections cfg = some cs) :
    ∀ c ∈ cs,
      c.startTime = cfg.collab_start
        + ((globalIndex cfg.num_fixed_nodes c.source : Nat) : ℚ) * (3 / 10) ∧
      c.stopTime = cfg.collab_start + cfg.collab_duration ∧
      ∀ c' ∈ cs, c'.source = c.source → c'.startTime = c.startTime := by
  obtain ⟨nbrs, hn, rfl⟩ := setup_collab_connections_split h
  have key : ∀ c ∈ (((List.range cfg.num_fixed_nodes).map (fun i =>
          clientsFromSource cfg (NodeKind.fixed, i)
            (cfg.collab_start + (i : ℚ) * (3 / 10))
            (topoGet nbrs (NodeKind.fixed, i)))).flatten
        ++ ((List.range cfg.num_mobile_nodes).map (fun i =>
          clientsFromSource cfg (NodeKind.mobile, i)
            (cfg.collab_start + ((cfg.num_fixed_nodes + i : Nat) : ℚ) * (3 / 10))
            (topoGet nbrs (NodeKind.mobile, i)))).flatten),
      c.startTime = cfg.collab_start
        + ((globalIndex cfg.num_fixed_nodes c.source : Nat) : ℚ) * (3 / 10) ∧
      c.stopTime = cfg.collab_start + cfg.collab_duration := by
    intro c hc
    rcases List.mem_append.mp hc with hside | hside <;>
    · obtain ⟨l, hl, hcl⟩ := List.mem_flatten.mp hside
      obtain ⟨i, _, rfl⟩ := List.mem_map.mp hl
      simp only [clientsFromSource, List.mem_map] at hcl
      obtain ⟨nb, _, rfl⟩ := hcl
      exact ⟨rfl, rfl⟩
  intro c hc
  exact ⟨(key c hc).1, (key c hc).2, fun c' hc' hsrc => by
    rw [(key c' hc').1, (key c hc).1, hsrc]⟩

/-- Witness for C6 at the default configuration. -/
theorem collab_clients_common_start_witness :
    setup_collab_connections defaultConfig
      = some ((setup_collab_connections defaultConfig).getD []) ∧
    ∀ c ∈ (setup_collab_connections defaultConfig).getD [],
      c.startTime = defaultConfig.collab_start
        + ((globalIndex defaultConfig.num_fixed_nodes c.source : Nat) : ℚ) * (3 / 10) ∧
      c.stopTime = defaultConfig.collab_start + defaultConfig.collab_duration ∧
      ∀ c' ∈ (setup_collab_connections defaultConfig).getD [],
        c'.source = c.source → c'.startTime = c.startTime :=
  ⟨rfl, collab_clients_common_start defaultConfig
    ((setup_collab_connections defaultConfig).getD []) rfl⟩

/-- Claim C7: every discovery sender targets the subnet broadcast address
`10.1.1.255` at the discovery port, is limited to exactly
`⌊discovery_duration / discovery_interval⌋` packets at the fixed repetition
interval, and stops at the discovery window end independently of its own
start offset. -/
theorem discovery_client_shape (cfg : SimulationConfig) (startTime : ℚ)
    (hdur : 0 ≤ cfg.discovery_duration) (hint : 0 < cfg.discovery_interval) :
    (create_discovery_client cfg startTime).destAddress = "10.1.1.255" ∧
    (create_discovery_client cfg startTime).destPort = cfg.discovery_port ∧
    (create_discovery_client cfg startTime).maxPackets
      = ⌊cfg.discovery_duration / cfg.discovery_interval⌋ ∧
    (create_discovery_client cfg startTime).interval = cfg.discovery_interval ∧
    (create_discovery_client cfg startTime).stopTime
      = cfg.discovery_start + cfg.discovery_duration ∧
    ∀ s' : ℚ, (create_discovery_client cfg s').stopTime
      = (create_discovery_client cfg startTime).stopTime := by
  refine ⟨rfl, rfl, ?_, rfl, rfl, fun _ => rfl⟩
  have hq : 0 ≤ cfg.discovery_duration / cfg.discovery_interval :=
    div_nonneg hdur hint.le
  simp [create_discovery_client, pyInt, hq]

/-- Witness for C7 at the default configuration, start offset 2:
`⌊20 / 2⌋ = 10` packets. -/
theorem discovery_client_shape_witness :
    (0 : ℚ) ≤ defaultConfig.discovery_duration ∧
    (0 : ℚ) < defaultConfig.discovery_interval ∧
    ((create_discovery_client defaultConfig 2).destAddress = "10.1.1.255" ∧
    (create_discovery_client defaultConfig 2).destPort = defaultConfig.discovery_port ∧
    (create_discovery_client defaultConfig 2).maxPackets
      = ⌊defaultConfig.discovery_duration / defaultConfig.discovery_interval⌋ ∧
    (create_discovery_client defaultConfig 2).interval
      = defaultConfig.discovery_interval ∧
    (create_discovery_client defaultConfig 2).stopTime
      = defaultConfig.discovery_start + defaultConfig.discovery_duration ∧
    ∀ s' : ℚ, (create_discovery_client defaultConfig s').stopTime
      = (create_discovery_client defaultConfig 2).stopTime) :=
  ⟨by norm_num [defaultConfig], by norm_num [defaultConfig],
    discovery_client_shape defaultConfig 2
      (by norm_num [defaultConfig]) (by norm_num [defaultConfig])⟩

/-- Claim C10: the discovery sender's destination is the hard-coded constant
`10.1.1.255`; two configurations that differ only in `network_base` (and
`network_mask`) produce identical discovery destination endpoints. -/
theorem broadcast_addr_independent (cfg₁ cfg₂ : SimulationConfig) (s : ℚ)
    (h : sameExceptNetwork cfg₁ cfg₂) :
    (create_discovery_client cfg₁ s).destAddress = "10.1.1.255" ∧
    (create_discovery_client cfg₁ s).destAddress
      = (create_discovery_client cfg₂ s).destAddress ∧
    (create_discovery_client cfg₁ s).destPort
      = (create_discovery_client cfg₂ s).destPort := by
  refine ⟨rfl, rfl, ?_⟩
  rw [h]
  rfl

/-- Witness for C10: the default configuration against a copy whose
`network_base` is `192.168.0.0`. -/
theorem broadcast_addr_independent_witness :
    sameExceptNetwork defaultConfig
      { defaultConfig with network_base := "192.168.0.0" } ∧
    ((create_discovery_client defaultConfig 2).destAddress = "10.1.1.255" ∧
    (create_discovery_client defaultConfig 2).destAddress
      = (create_discovery_client
          { defaultConfig with network_base := "192.168.0.0" } 2).destAddress ∧
    (create_discovery_client defaultConfig 2).destPort
      = (create_discovery_client
          { defaultConfig with network_base := "192.168.0.0" } 2).destPort) :=
  ⟨rfl, broadcast_addr_independent defaultConfig
    { defaultConfig with network_base := "192.168.0.0" } 2 rfl⟩

end DiscoveryCollab
